import Mathlib

/-!
Verification of the GitHub-Issues-API-Wrapper service (`src/main.py`).

The development shallowly embeds the pieces of the program the claims are
about:

* `verify_signature` / the HMAC-SHA256 pipeline it invokes through Python's
  `hmac` and `hashlib` modules (FIPS 180-4 SHA-256 and RFC 2104 HMAC,
  modelled over `Nat` byte lists with explicit `% 2^32` wrap-around);
* the `/webhook` handler: signature check, event-type allow-list,
  delivery-id deduplication and append to the in-memory `events_store`
  (the mutable global list is modelled by explicit state passing);
* `GET /events` with Python's `events_store[-limit:]` slice semantics;
* the `POST /issues` and `PATCH /issues/{number}` handlers, with the
  outbound HTTP call to the upstream tracker modelled as an explicit
  oracle parameter (a function from the outbound payload to the upstream
  response), so that "no upstream round trip" is expressible as
  independence from the oracle.

Raised `HTTPException`s are modelled as returned (status, detail) error
values; a handler that would crash on malformed upstream data returns
`Option`/is guarded by the corresponding hypothesis.
-/

/-! ## SHA-256 (FIPS 180-4), as invoked by `hashlib.sha256` -/

/-- Word modulus of SHA-256's 32-bit arithmetic, 2^32. -/
def W32 : Nat := 4294967296

/-- Rotate the 32-bit word `x` right by `n` positions. -/
def rotr (n x : Nat) : Nat := ((x >>> n) ||| (x <<< (32 - n))) % W32

/-- Bitwise complement within 32 bits. -/
def bnot32 (x : Nat) : Nat := x ^^^ 4294967295

def smallSigma0 (x : Nat) : Nat := rotr 7 x ^^^ rotr 18 x ^^^ (x >>> 3)

def smallSigma1 (x : Nat) : Nat := rotr 17 x ^^^ rotr 19 x ^^^ (x >>> 10)

def bigSigma0 (x : Nat) : Nat := rotr 2 x ^^^ rotr 13 x ^^^ rotr 22 x

def bigSigma1 (x : Nat) : Nat := rotr 6 x ^^^ rotr 11 x ^^^ rotr 25 x

def chFn (e f g : Nat) : Nat := (e &&& f) ^^^ (bnot32 e &&& g)

def majFn (a b c : Nat) : Nat := (a &&& b) ^^^ (a &&& c) ^^^ (b &&& c)

/-- The 64 SHA-256 round constants. -/
def sha256K : List Nat :=
  [1116352408, 1899447441, 3049323471, 3921009573, 961987163,
   1508970993, 2453635748, 2870763221, 3624381080, 310598401,
   607225278, 1426881987, 1925078388, 2162078206, 2614888103,
   3248222580, 3835390401, 4022224774, 264347078, 604807628,
   770255983, 1249150122, 1555081692, 1996064986, 2554220882,
   2821834349, 2952996808, 3210313671, 3336571891, 3584528711,
   113926993, 338241895, 666307205, 773529912, 1294757372,
   1396182291, 1695183700, 1986661051, 2177026350, 2456956037,
   2730485921, 2820302411, 3259730800, 3345764771, 3516065817,
   3600352804, 4094571909, 275423344, 430227734, 506948616,
   659060556, 883997877, 958139571, 1322822218, 1537002063,
   1747873779, 1955562222, 2024104815, 2227730452, 2361852424,
   2428436474, 2756734187, 3204031479, 3329325298]

/-- The eight 32-bit words of SHA-256 hash state. -/
@[ext] structure SHState where
  a : Nat
  b : Nat
  c : Nat
  d : Nat
  e : Nat
  f : Nat
  g : Nat
  h : Nat
deriving DecidableEq

/-- SHA-256 initial hash value. -/
def initH : SHState :=
  ⟨1779033703, 3144134277, 1013904242, 2773480762,
   1359893119, 2600822924, 528734635, 1541459225⟩

/-- The first 16 schedule words of a 64-byte block (big-endian bytes to words). -/
def blockWords (block : List Nat) : List Nat :=
  (List.range 16).map fun i =>
    (block.getD (4 * i) 0) * 16777216 + (block.getD (4 * i + 1) 0) * 65536 +
      (block.getD (4 * i + 2) 0) * 256 + block.getD (4 * i + 3) 0

/-- One message-schedule extension step: append `w[i] = σ1 w[i-2] + w[i-7] + σ0 w[i-15] + w[i-16]`. -/
def scheduleStep (ws : List Nat) (_i : Nat) : List Nat :=
  let n := ws.length
  ws ++ [(smallSigma1 (ws.getD (n - 2) 0) + ws.getD (n - 7) 0 +
          smallSigma0 (ws.getD (n - 15) 0) + ws.getD (n - 16) 0) % W32]

/-- The full 64-word message schedule of a block. -/
def msgSchedule (block : List Nat) : List Nat :=
  (List.range 48).foldl scheduleStep (blockWords block)

/-- One SHA-256 round on the working variables, for a (constant, schedule-word) pair. -/
def shaRound (st : SHState) (kw : Nat × Nat) : SHState :=
  let t1 := (st.h + bigSigma1 st.e + chFn st.e st.f st.g + kw.1 + kw.2) % W32
  let t2 := (bigSigma0 st.a + majFn st.a st.b st.c) % W32
  { a := (t1 + t2) % W32, b := st.a, c := st.b, d := st.c,
    e := (st.d + t1) % W32, f := st.e, g := st.f, h := st.g }

/-- Process one 64-byte block: 64 rounds, then add into the chaining state mod 2^32. -/
def compress (st : SHState) (block : List Nat) : SHState :=
  let t := (sha256K.zip (msgSchedule block)).foldl shaRound st
  { a := (st.a + t.a) % W32, b := (st.b + t.b) % W32, c := (st.c + t.c) % W32,
    d := (st.d + t.d) % W32, e := (st.e + t.e) % W32, f := (st.f + t.f) % W32,
    g := (st.g + t.g) % W32, h := (st.h + t.h) % W32 }

/-- Big-endian 8-byte encoding of the message bit length. -/
def lenBytes (ml : Nat) : List Nat :=
  [ml / 2 ^ 56 % 256, ml / 2 ^ 48 % 256, ml / 2 ^ 40 % 256, ml / 2 ^ 32 % 256,
   ml / 2 ^ 24 % 256, ml / 2 ^ 16 % 256, ml / 2 ^ 8 % 256, ml % 256]

/-- SHA-256 padding: append 0x80, zero bytes to 56 mod 64, then the 64-bit bit length. -/
def padMessage (msg : List Nat) : List Nat :=
  let padLen := (64 - (msg.length + 9) % 64) % 64
  msg ++ [0x80] ++ List.replicate padLen 0 ++ lenBytes (8 * msg.length)

/-- Split a padded message into 64-byte blocks. -/
def toBlocks (l : List Nat) : List (List Nat) :=
  (List.range (l.length / 64)).map fun i => (l.drop (64 * i)).take 64

/-- SHA-256 of a byte list, as the final eight-word hash state. -/
def sha256Hash (msg : List Nat) : SHState :=
  (toBlocks (padMessage msg)).foldl compress initH

/-- Big-endian byte decomposition of one 32-bit word. -/
def wordBytes (x : Nat) : List Nat :=
  [x / 2 ^ 24 % 256, x / 2 ^ 16 % 256, x / 2 ^ 8 % 256, x % 256]

/-- The 32 digest bytes of a hash state. -/
def digestBytes (st : SHState) : List Nat :=
  wordBytes st.a ++ wordBytes st.b ++ wordBytes st.c ++ wordBytes st.d ++
    wordBytes st.e ++ wordBytes st.f ++ wordBytes st.g ++ wordBytes st.h

/-- Lower-case hex digit. -/
def hexChar (n : Nat) : Char := if n < 10 then Char.ofNat (48 + n) else Char.ofNat (87 + n)

/-- Two-character lower-case hex encoding of one byte. -/
def byteHex (b : Nat) : List Char := [hexChar (b / 16), hexChar (b % 16)]

/-- Lower-case hex string of a byte list (Python's `.hexdigest()`). -/
def hexdigest (bytes : List Nat) : String := ⟨(bytes.map byteHex).flatten⟩

/-! ## HMAC-SHA256 (RFC 2104), as invoked by `hmac.new(key, msg, hashlib.sha256)` -/

/-- HMAC-SHA256 final hash state for a key and message (byte lists). -/
def hmacSha256 (key msg : List Nat) : SHState :=
  let k1 := if 64 < key.length then digestBytes (sha256Hash key) else key
  let k0 := k1 ++ List.replicate (64 - k1.length) 0
  let ipad := k0.map fun b => b ^^^ 0x36
  let opad := k0.map fun b => b ^^^ 0x5c
  sha256Hash (opad ++ digestBytes (sha256Hash (ipad ++ msg)))

/-- Model of `hmac.new(key, msg, hashlib.sha256).hexdigest()`. -/
def hmacHexdigest (key msg : List Nat) : String :=
  hexdigest (digestBytes (hmacSha256 key msg))

/-- Raw bytes (e.g. a request body or an encoded secret) as the `Nat` values. -/
def bytesVal (b : List (Fin 256)) : List Nat := b.map Fin.val

/-- Model of `hmac.compare_digest`: in the source a constant-time comparison; extensionally
it is string equality (the timing behaviour is not observable in this model). -/
def compare_digest (a b : String) : Bool := a == b

/-- Function `verify_signature` from `src/main.py`: `None` or empty claimed signature fails
immediately; otherwise compare `sha256=<hex digest>` of the raw body against the
claimed signature. -/
def verify_signature (secret : List (Fin 256)) (signature : Option String)
    (body : List (Fin 256)) : Bool :=
  match signature with
  | none => false
  | some s =>
    if s = "" then false
    else compare_digest ("sha256=" ++ hmacHexdigest (bytesVal secret) (bytesVal body)) s

/-- Modelled from the spec: `sign(P, S)` is the signature a legitimate sender
attaches, i.e. `sha256=` followed by the hex HMAC-SHA256 digest of the raw
payload bytes under the shared secret. -/
def sign (secret payload : List (Fin 256)) : String :=
  "sha256=" ++ hmacHexdigest (bytesVal secret) (bytesVal payload)

/-! ## Upstream tracker data model and the issue endpoints -/

/-- An upstream label object (only its `name` field is read). -/
structure Label where
  name : String
deriving DecidableEq

/-- The fields of an upstream issue JSON object that the handlers read. -/
structure UpstreamIssue where
  number : Nat
  title : String
  body : Option String
  state : String
  labels : List Label
  html_url : String
  created_at : String
  updated_at : String
deriving DecidableEq

/-- An upstream HTTP response: its status code, its body parsed as an issue
object when it is one (`r.json()`), and its raw text (`r.text`). -/
structure UpstreamResponse where
  status : Nat
  issue : Option UpstreamIssue
  text : String

/-- Function `extract_labels` from `src/main.py`: the ordered label names. -/
def extract_labels (issue_data : UpstreamIssue) : List String :=
  issue_data.labels.map fun label => label.name

/-- The reduced public issue shape returned by the service. -/
structure IssueOut where
  number : Nat
  title : String
  body : Option String
  state : String
  labels : List String
  html_url : String
  created_at : String
  updated_at : String
deriving DecidableEq

/-- The Shape Translator: upstream issue object to the reduced public shape. -/
def translate_issue (data : UpstreamIssue) : IssueOut :=
  { number := data.number, title := data.title, body := data.body, state := data.state,
    labels := extract_labels data, html_url := data.html_url,
    created_at := data.created_at, updated_at := data.updated_at }

/-- The `IssueCreate` request model (`title` required, `body`/`labels` optional). -/
structure IssueCreate where
  title : String
  body : Option String := none
  labels : Option (List String) := none

/-- The JSON payload `create_issue` sends upstream (`issue.labels or []`). -/
structure CreatePayload where
  title : String
  body : Option String
  labels : List String

/-- Local outcome of an issue endpoint: success with status, `Location` header
value and translated body, or a raised `HTTPException (status, detail)`. -/
inductive CreateResult where
  | success (status : Nat) (location : String) (body : IssueOut)
  | err (status : Nat) (detail : String)
deriving DecidableEq

/-- Handler `create_issue` (`POST /issues`) from `src/main.py`. The outbound HTTP call is
the oracle `upstream`; `none` models the unhandled exception raised when a 201
response's body is not an issue object (`data["number"]` on malformed JSON). -/
def create_issue (issue : IssueCreate) (upstream : CreatePayload → UpstreamResponse) :
    Option CreateResult :=
  let r := upstream { title := issue.title, body := issue.body, labels := issue.labels.getD [] }
  if r.status = 201 then
    r.issue.map fun data =>
      CreateResult.success 201 ("/issues/" ++ toString data.number) (translate_issue data)
  else if r.status = 401 then some (.err 401 "Unauthorized")
  else some (.err 400 r.text)

/-- The `IssueUpdate` request model with pydantic `exclude_unset` semantics:
the outer `Option` is set/unset, the inner one is the JSON value or `null`. -/
structure IssueUpdate where
  title : Option (Option String) := none
  body : Option (Option String) := none
  state : Option (Option String) := none

/-- Condition `"state" in update_payload and update_payload["state"] not in ["open", "closed"]`. -/
def state_invalid (issue : IssueUpdate) : Bool :=
  match issue.state with
  | none => false
  | some v => decide (v ∉ ([some "open", some "closed"] : List (Option String)))

/-- Local outcome of `PATCH /issues/{number}`: the raw upstream response body
on 200, or a raised `HTTPException (status, detail)`. -/
inductive UpdateResult where
  | ok (r : UpstreamResponse)
  | err (status : Nat) (detail : String)

/-- Handler `update_issue` (`PATCH /issues/{number}`) from `src/main.py`: local state
validation happens before the upstream oracle is consulted. -/
def update_issue (_number : Nat) (issue : IssueUpdate)
    (upstream : IssueUpdate → UpstreamResponse) : UpdateResult :=
  if state_invalid issue then .err 400 "state must be 'open' or 'closed'"
  else
    let r := upstream issue
    if r.status = 200 then .ok r
    else if r.status = 404 then .err 404 "Issue not found"
    else .err r.status r.text

/-! ## The webhook pipeline and the event store -/

/-- The fields the handler extracts from the parsed JSON payload:
`payload.get("action")`, `payload.get("issue", {}).get("number")`,
`payload.get("repository", {}).get("updated_at")`. -/
structure WebhookPayload where
  action : Option String
  issueNumber : Option Nat
  repoUpdatedAt : Option String
deriving DecidableEq

/-- An inbound `POST /webhook` request: the three headers (each may be absent),
the raw body bytes, and the body parsed as JSON. -/
structure WebhookRequest where
  signature : Option String
  event : Option String
  delivery : Option String
  body : List (Fin 256)
  payload : WebhookPayload

/-- A stored webhook event record (one element of `events_store`). -/
structure WebhookRecord where
  id : Option String
  event : Option String
  action : Option String
  issue_number : Option Nat
  timestamp : Option String
deriving DecidableEq

/-- The event-type allow-list, compared against the possibly-absent
`X-Github-Event` header (Python's `x_github_event not in [...]`). -/
def allowed_events : List (Option String) := [some "issues", some "issue_comment", some "ping"]

/-- The `event_record` dict built by the handler. -/
def mk_event_record (req : WebhookRequest) : WebhookRecord :=
  { id := req.delivery, event := req.event, action := req.payload.action,
    issue_number := req.payload.issueNumber, timestamp := req.payload.repoUpdatedAt }

/-- The `/webhook` handler from `src/main.py`, with the mutable global
`events_store` passed as explicit state: returns the response status code and
the new store. Raised `HTTPException`s become (401, store) / (400, store). -/
def webhook_handler (secret : List (Fin 256)) (store : List WebhookRecord)
    (req : WebhookRequest) : Nat × List WebhookRecord :=
  if ¬ (verify_signature secret req.signature req.body = true) then (401, store)
  else if ¬ (req.event ∈ allowed_events) then (400, store)
  else if store.any (fun e => e.id == req.delivery) then (204, store)
  else (204, store ++ [mk_event_record req])

/-- Python tail slice `l[i:]`: a negative start counts from the end (clamped at
the front), a nonnegative start drops that many elements. -/
def pySliceFrom {α : Type} (i : Int) (l : List α) : List α :=
  if i < 0 then l.drop ((l.length : Int) + i).toNat else l.drop i.toNat

/-- Handler `get_events` (`GET /events`) from `src/main.py`: `events_store[-limit:]`,
with the FastAPI query-parameter default `limit = 10`. -/
def get_events (limit : Option Int) (store : List WebhookRecord) : List WebhookRecord :=
  pySliceFrom (-(limit.getD 10)) store

/-! ## Word-boundedness of the hash pipeline, and the pigeonhole collision -/

/-- All eight state words are below 2^32. -/
def wordBounded (st : SHState) : Prop :=
  st.a < W32 ∧ st.b < W32 ∧ st.c < W32 ∧ st.d < W32 ∧
    st.e < W32 ∧ st.f < W32 ∧ st.g < W32 ∧ st.h < W32

lemma compress_bounded (st : SHState) (block : List Nat) : wordBounded (compress st block) := by
  unfold wordBounded compress
  refine ⟨?_, ?_, ?_, ?_, ?_, ?_, ?_, ?_⟩ <;> exact Nat.mod_lt _ (by decide)

lemma foldl_compress_bounded (bs : List (List Nat)) (st : SHState) (h : wordBounded st) :
    wordBounded (bs.foldl compress st) := by
  induction bs generalizing st with
  | nil => exact h
  | cons b bs ih =>
    rw [List.foldl_cons]
    exact ih (compress st b) (compress_bounded st b)

lemma initH_bounded : wordBounded initH := by
  unfold wordBounded initH; refine ⟨?_, ?_, ?_, ?_, ?_, ?_, ?_, ?_⟩ <;> decide

lemma sha256Hash_bounded (msg : List Nat) : wordBounded (sha256Hash msg) :=
  foldl_compress_bounded _ _ initH_bounded

lemma hmacSha256_bounded (key msg : List Nat) : wordBounded (hmacSha256 key msg) := by
  unfold hmacSha256
  exact sha256Hash_bounded _

/-- Pack a hash state into a finite type (eight 32-bit words). -/
def packState (st : SHState) :
    Fin W32 × Fin W32 × Fin W32 × Fin W32 × Fin W32 × Fin W32 × Fin W32 × Fin W32 :=
  (⟨st.a % W32, Nat.mod_lt _ (by decide)⟩, ⟨st.b % W32, Nat.mod_lt _ (by decide)⟩,
   ⟨st.c % W32, Nat.mod_lt _ (by decide)⟩, ⟨st.d % W32, Nat.mod_lt _ (by decide)⟩,
   ⟨st.e % W32, Nat.mod_lt _ (by decide)⟩, ⟨st.f % W32, Nat.mod_lt _ (by decide)⟩,
   ⟨st.g % W32, Nat.mod_lt _ (by decide)⟩, ⟨st.h % W32, Nat.mod_lt _ (by decide)⟩)

lemma packState_inj {s t : SHState} (hs : wordBounded s) (ht : wordBounded t)
    (h : packState s = packState t) : s = t := by
  unfold packState at h
  simp only [Prod.mk.injEq, Fin.mk.injEq] at h
  obtain ⟨hs1, hs2, hs3, hs4, hs5, hs6, hs7, hs8⟩ := hs
  obtain ⟨ht1, ht2, ht3, ht4, ht5, ht6, ht7, ht8⟩ := ht
  obtain ⟨h1, h2, h3, h4, h5, h6, h7, h8⟩ := h
  ext
  · rw [← Nat.mod_eq_of_lt hs1, ← Nat.mod_eq_of_lt ht1]; exact h1
  · rw [← Nat.mod_eq_of_lt hs2, ← Nat.mod_eq_of_lt ht2]; exact h2
  · rw [← Nat.mod_eq_of_lt hs3, ← Nat.mod_eq_of_lt ht3]; exact h3
  · rw [← Nat.mod_eq_of_lt hs4, ← Nat.mod_eq_of_lt ht4]; exact h4
  · rw [← Nat.mod_eq_of_lt hs5, ← Nat.mod_eq_of_lt ht5]; exact h5
  · rw [← Nat.mod_eq_of_lt hs6, ← Nat.mod_eq_of_lt ht6]; exact h6
  · rw [← Nat.mod_eq_of_lt hs7, ← Nat.mod_eq_of_lt ht7]; exact h7
  · rw [← Nat.mod_eq_of_lt hs8, ← Nat.mod_eq_of_lt ht8]; exact h8

/-- Infinitely many byte strings, finitely many 256-bit digests: HMAC-SHA256
with any fixed key has a collision among genuine (distinct) byte strings. -/
lemma hmac_exists_collision (S : List (Fin 256)) :
    ∃ P Q : List (Fin 256), P ≠ Q ∧
      hmacSha256 (bytesVal S) (bytesVal P) = hmacSha256 (bytesVal S) (bytesVal Q) := by
  obtain ⟨P, Q, hne, heq⟩ := Finite.exists_ne_map_eq_of_infinite
    (fun P : List (Fin 256) => packState (hmacSha256 (bytesVal S) (bytesVal P)))
  exact ⟨P, Q, hne, packState_inj (hmacSha256_bounded _ _) (hmacSha256_bounded _ _) heq⟩

/-! ## Basic facts about `verify_signature` and `sign` -/

lemma string_append_mk (s : String) (l : List Char) : s ++ String.mk l = String.mk (s.data ++ l) :=
  rfl

lemma sign_ne_empty (secret payload : List (Fin 256)) : sign secret payload ≠ "" := by
  unfold sign hmacHexdigest hexdigest
  rw [string_append_mk]
  intro h
  have := congrArg String.data h
  simp at this

/-- A claimed signature of the well-signed form verifies exactly when the hex
digest it embeds agrees with the digest of the presented body. -/
lemma verify_sign_iff (secret sent presented : List (Fin 256)) :
    verify_signature secret (some (sign secret sent)) presented = true ↔
      hmacHexdigest (bytesVal secret) (bytesVal presented) =
        hmacHexdigest (bytesVal secret) (bytesVal sent) := by
  show (if sign secret sent = "" then false
        else compare_digest ("sha256=" ++ hmacHexdigest (bytesVal secret) (bytesVal presented))
          (sign secret sent)) = true ↔ _
  rw [if_neg (sign_ne_empty secret sent)]
  unfold compare_digest sign
  rw [beq_iff_eq]
  constructor
  · intro h
    have hd := congrArg String.data h
    unfold hmacHexdigest hexdigest at hd ⊢
    rw [string_append_mk, string_append_mk] at hd
    exact congrArg String.mk (List.append_cancel_left hd)
  · intro h
    rw [h]

/-- The round trip of the spec's first testable property: a correctly signed
payload always verifies. -/
lemma verify_sign_self (secret payload : List (Fin 256)) :
    verify_signature secret (some (sign secret payload)) payload = true :=
  (verify_sign_iff secret payload payload).mpr rfl

/-! ## Behaviour of the webhook handler, case by case -/

lemma handler_unauthorized (secret : List (Fin 256)) (store : List WebhookRecord)
    (req : WebhookRequest) (hv : verify_signature secret req.signature req.body = false) :
    webhook_handler secret store req = (401, store) := by
  unfold webhook_handler
  rw [if_pos (by simp [hv])]

lemma handler_unsupported (secret : List (Fin 256)) (store : List WebhookRecord)
    (req : WebhookRequest) (hv : verify_signature secret req.signature req.body = true)
    (he : req.event ∉ allowed_events) :
    webhook_handler secret store req = (400, store) := by
  unfold webhook_handler
  rw [if_neg (by simp [hv]), if_pos he]

lemma handler_dup (secret : List (Fin 256)) (store : List WebhookRecord)
    (req : WebhookRequest) (hv : verify_signature secret req.signature req.body = true)
    (he : req.event ∈ allowed_events) (hc : ∃ e ∈ store, e.id = req.delivery) :
    webhook_handler secret store req = (204, store) := by
  unfold webhook_handler
  rw [if_neg (by simp [hv]), if_neg (by simp [he])]
  obtain ⟨e, hmem, hid⟩ := hc
  rw [if_pos (List.any_eq_true.mpr ⟨e, hmem, by simp [hid]⟩)]

lemma handler_fresh (secret : List (Fin 256)) (store : List WebhookRecord)
    (req : WebhookRequest) (hv : verify_signature secret req.signature req.body = true)
    (he : req.event ∈ allowed_events) (hc : ∀ e ∈ store, e.id ≠ req.delivery) :
    webhook_handler secret store req = (204, store ++ [mk_event_record req]) := by
  unfold webhook_handler
  rw [if_neg (by simp [hv]), if_neg (by simp [he])]
  rw [if_neg (by simp [List.any_eq_true]; intro e hmem; exact hc e hmem)]

/-! ## Claim theorems -/

/-- Claim C2 (amended): a correctly signed payload always verifies, and a
well-formed signature of payload `P` verifies against a presented body `Q`
exactly when the HMAC-SHA256 hex digests of `Q` and `P` under the secret
coincide — so tampering is detected precisely unless it produces an HMAC
collision (which exists, see the counterexample, but is what the
constant-time digest comparison is by construction unable to distinguish). -/
theorem verify_sign_roundtrip_and_tamper_iff (S P Q : List (Fin 256)) :
    verify_signature S (some (sign S P)) P = true
  ∧ (verify_signature S (some (sign S P)) Q = true ↔
      hmacHexdigest (bytesVal S) (bytesVal Q) = hmacHexdigest (bytesVal S) (bytesVal P)) :=
  ⟨verify_sign_self S P, verify_sign_iff S P Q⟩

/-- Counterexample to claim C2 as stated: it is not the case that every
presented body different from the signed one fails verification — infinitely
many byte strings map to finitely many 256-bit digests, so some distinct pair
collides under HMAC-SHA256 and the colliding body verifies. -/
theorem verify_tamper_not_universally_false :
    ¬ ∀ (S P Q : List (Fin 256)), P ≠ Q →
        verify_signature S (some (sign S P)) Q = false := by
  intro hall
  obtain ⟨P, Q, hne, heq⟩ := hmac_exists_collision []
  have htrue : verify_signature [] (some (sign [] P)) Q = true :=
    (verify_sign_iff [] P Q).mpr (by unfold hmacHexdigest; rw [heq])
  have hfalse := hall [] P Q hne
  rw [htrue] at hfalse
  simp at hfalse

/-- Claim C8: an absent (`None`) or empty claimed signature makes verification
return false, and the webhook request is rejected with 401 leaving the store
unchanged. (In the model, as in the source, the `None`/empty check returns
before the HMAC expression is ever reached.) -/
theorem verify_missing_signature_rejected (secret : List (Fin 256))
    (store : List WebhookRecord) (req : WebhookRequest)
    (h : req.signature = none ∨ req.signature = some "") :
    verify_signature secret req.signature req.body = false
  ∧ webhook_handler secret store req = (401, store) := by
  have hv : verify_signature secret req.signature req.body = false := by
    rcases h with h | h <;> rw [h] <;> rfl
  exact ⟨hv, handler_unauthorized secret store req hv⟩

/-- Witness for claim C8 at a concrete request with no signature header. -/
theorem verify_missing_signature_rejected_witness :
    ((none : Option String) = none ∨ (none : Option String) = some "")
  ∧ (verify_signature [] none [] = false
     ∧ webhook_handler [] [] ⟨none, some "issues", none, [], ⟨none, none, none⟩⟩ = (401, [])) :=
  ⟨Or.inl rfl,
    verify_missing_signature_rejected [] []
      ⟨none, some "issues", none, [], ⟨none, none, none⟩⟩ (Or.inl rfl)⟩

/-- Claim C5: a request whose signature fails verification is answered 401 with
the store unchanged — never 400 — regardless of the declared event type. -/
theorem webhook_bad_signature_unauthorized (secret : List (Fin 256))
    (store : List WebhookRecord) (req : WebhookRequest)
    (hv : verify_signature secret req.signature req.body = false) :
    webhook_handler secret store req = (401, store)
  ∧ (webhook_handler secret store req).1 ≠ 400 := by
  refine ⟨handler_unauthorized secret store req hv, ?_⟩
  rw [handler_unauthorized secret store req hv]
  simp

/-- Witness for claim C5: a missing signature with an allow-listed event type
still draws 401, not 400. -/
theorem webhook_bad_signature_unauthorized_witness :
    verify_signature [] none [] = false
  ∧ (webhook_handler [] [] ⟨none, some "issues", none, [], ⟨some "opened", none, none⟩⟩ = (401, [])
     ∧ (webhook_handler [] [] ⟨none, some "issues", none, [], ⟨some "opened", none, none⟩⟩).1 ≠ 400) :=
  ⟨rfl, webhook_bad_signature_unauthorized [] []
    ⟨none, some "issues", none, [], ⟨some "opened", none, none⟩⟩ rfl⟩

/-- Claim C4: a validly signed request whose declared event type is outside the
allow-list is answered 400 and the store is unchanged (no record appended). -/
theorem webhook_unsupported_event_rejected (secret : List (Fin 256))
    (store : List WebhookRecord) (req : WebhookRequest)
    (hv : verify_signature secret req.signature req.body = true)
    (he : req.event ∉ allowed_events) :
    webhook_handler secret store req = (400, store) :=
  handler_unsupported secret store req hv he

/-- Witness for claim C4: a correctly signed `pull_request` event is rejected
with 400 and nothing is stored. -/
theorem webhook_unsupported_event_rejected_witness :
    verify_signature [] (some (sign [] [])) [] = true
  ∧ (some "pull_request" : Option String) ∉ allowed_events
  ∧ webhook_handler [] []
      ⟨some (sign [] []), some "pull_request", some "d1", [], ⟨none, none, none⟩⟩ = (400, []) :=
  ⟨verify_sign_self [] [], by decide,
    webhook_unsupported_event_rejected [] []
      ⟨some (sign [] []), some "pull_request", some "d1", [], ⟨none, none, none⟩⟩
      (verify_sign_self [] []) (by decide)⟩

/-- Claim C1: on a validly signed, allow-listed request, a delivery id already
present in the store makes the handler a 204 no-op; a fresh delivery id is
appended exactly once across two identical submissions, both answered 204; and
the handler preserves the no-duplicate-delivery-id invariant of the store. -/
theorem webhook_dedup_idempotent (secret : List (Fin 256)) (store : List WebhookRecord)
    (req : WebhookRequest)
    (hv : verify_signature secret req.signature req.body = true)
    (he : req.event ∈ allowed_events) :
    ((∃ e ∈ store, e.id = req.delivery) → webhook_handler secret store req = (204, store))
  ∧ (req.delivery ∉ store.map (fun e => e.id) →
      webhook_handler secret store req = (204, store ++ [mk_event_record req])
      ∧ webhook_handler secret (store ++ [mk_event_record req]) req
          = (204, store ++ [mk_event_record req]))
  ∧ ((store.map fun e => e.id).Nodup →
      ((webhook_handler secret store req).2.map fun e => e.id).Nodup) := by
  refine ⟨fun hc => handler_dup secret store req hv he hc, fun hnin => ?_, fun hnd => ?_⟩
  · have hfresh : ∀ e ∈ store, e.id ≠ req.delivery := fun e hmem heq =>
      hnin (List.mem_map.mpr ⟨e, hmem, heq⟩)
    refine ⟨handler_fresh secret store req hv he hfresh, ?_⟩
    exact handler_dup secret (store ++ [mk_event_record req]) req hv he
      ⟨mk_event_record req, by simp, rfl⟩
  · by_cases hc : ∃ e ∈ store, e.id = req.delivery
    · rw [handler_dup secret store req hv he hc]
      exact hnd
    · push_neg at hc
      rw [handler_fresh secret store req hv he hc]
      simp only [List.map_append]
      rw [List.nodup_append]
      refine ⟨hnd, by simp, ?_⟩
      intro x hx hx'
      simp only [List.map_cons, List.map_nil, List.mem_singleton] at hx'
      obtain ⟨e, hmem, hid⟩ := List.mem_map.mp hx
      exact hc e hmem (by rw [hid, hx']; simp [mk_event_record])

/-- Sample request for the claim C1 witness: validly signed `issues` event with
delivery id `abc123` over the empty body and secret. -/
def sampleReq : WebhookRequest :=
  ⟨some (sign [] []), some "issues", some "abc123", [], ⟨none, none, none⟩⟩

/-- Record already stored under the delivery id `abc123`. -/
def dupRecord : WebhookRecord := ⟨some "abc123", some "issues", none, none, none⟩

/-- Witness for claim C1: a duplicate delivery is a 204 no-op, and a fresh one
is stored exactly once with both submissions answered 204. -/
theorem webhook_dedup_idempotent_witness :
    verify_signature [] sampleReq.signature sampleReq.body = true
  ∧ sampleReq.event ∈ allowed_events
  ∧ (∃ e ∈ [dupRecord], e.id = sampleReq.delivery)
  ∧ webhook_handler [] [dupRecord] sampleReq = (204, [dupRecord])
  ∧ sampleReq.delivery ∉ ([] : List WebhookRecord).map (fun e => e.id)
  ∧ webhook_handler [] [] sampleReq = (204, [] ++ [mk_event_record sampleReq])
  ∧ webhook_handler [] ([] ++ [mk_event_record sampleReq]) sampleReq
      = (204, [] ++ [mk_event_record sampleReq]) := by
  have hv : verify_signature [] sampleReq.signature sampleReq.body = true :=
    verify_sign_self [] []
  have he : sampleReq.event ∈ allowed_events := by decide
  refine ⟨hv, he, ⟨dupRecord, by simp, rfl⟩, ?_, by simp, ?_, ?_⟩
  · exact (webhook_dedup_idempotent [] [dupRecord] sampleReq hv he).1 ⟨dupRecord, by simp, rfl⟩
  · exact ((webhook_dedup_idempotent [] [] sampleReq hv he).2.1 (by simp)).1
  · exact ((webhook_dedup_idempotent [] [] sampleReq hv he).2.1 (by simp)).2

/-- Claim C10: a validly signed, allow-listed request with no
`X-Github-Delivery` header is accepted with 204; on a store with no null-id
record it appends a record whose id is null, and any later such request is
deduplicated against a null-id record (204, store unchanged). -/
theorem webhook_null_delivery_dedup (secret : List (Fin 256))
    (store store' : List WebhookRecord) (req req' : WebhookRequest)
    (hv : verify_signature secret req.signature req.body = true)
    (he : req.event ∈ allowed_events) (hd : req.delivery = none)
    (hv' : verify_signature secret req'.signature req'.body = true)
    (he' : req'.event ∈ allowed_events) (hd' : req'.delivery = none) :
    ((∀ e ∈ store, e.id ≠ none) →
        webhook_handler secret store req = (204, store ++ [mk_event_record req])
        ∧ (mk_event_record req).id = none)
  ∧ ((∃ e ∈ store', e.id = none) → webhook_handler secret store' req' = (204, store')) := by
  constructor
  · intro hno
    refine ⟨handler_fresh secret store req hv he fun e hmem => ?_, by simp [mk_event_record, hd]⟩
    rw [hd]
    exact hno e hmem
  · intro ⟨e, hmem, hid⟩
    exact handler_dup secret store' req' hv' he' ⟨e, hmem, by rw [hid, hd']⟩

/-- Sample request for the claim C10 witness: validly signed `ping` with no
delivery header. -/
def nullReq : WebhookRequest :=
  ⟨some (sign [] []), some "ping", none, [], ⟨none, none, none⟩⟩

/-- Witness for claim C10: the first headerless delivery stores a null-id
record, and the next headerless delivery is deduplicated against it. -/
theorem webhook_null_delivery_dedup_witness :
    verify_signature [] nullReq.signature nullReq.body = true
  ∧ nullReq.event ∈ allowed_events
  ∧ nullReq.delivery = none
  ∧ (∀ e ∈ ([] : List WebhookRecord), e.id ≠ none)
  ∧ webhook_handler [] [] nullReq = (204, [] ++ [mk_event_record nullReq])
  ∧ (mk_event_record nullReq).id = none
  ∧ (∃ e ∈ [mk_event_record nullReq], e.id = none)
  ∧ webhook_handler [] [mk_event_record nullReq] nullReq = (204, [mk_event_record nullReq]) := by
  have hv : verify_signature [] nullReq.signature nullReq.body = true := verify_sign_self [] []
  have he : nullReq.event ∈ allowed_events := by decide
  have h := webhook_null_delivery_dedup [] [] [mk_event_record nullReq] nullReq nullReq
    hv he rfl hv he rfl
  refine ⟨hv, he, rfl, by simp, (h.1 (by simp)).1, (h.1 (by simp)).2, ⟨mk_event_record nullReq, by simp, rfl⟩, ?_⟩
  exact h.2 ⟨mk_event_record nullReq, by simp, rfl⟩

/-- Claim C3 (amended): for a positive limit `n`, `GET /events` returns the last
`min n size` records in arrival order (so a limit beyond the store size returns
the whole store, without error); `limit=0` returns the entire store (Python's
`[-0:]` is `[0:]`), not an empty sequence; a negative limit `-n` is not clamped
to zero but drops the first `n` records; the default limit is 10. -/
theorem get_events_tail_semantics (store : List WebhookRecord) (n : Nat) :
    (1 ≤ n → get_events (some ((n : Nat) : Int)) store = store.drop (store.length - n))
  ∧ get_events (some 0) store = store
  ∧ get_events (some (-((n : Nat) : Int))) store = store.drop n
  ∧ get_events none store = get_events (some 10) store := by
  refine ⟨?_, ?_, ?_, rfl⟩
  · intro hn
    unfold get_events pySliceFrom
    simp only [Option.getD_some]
    rw [if_pos (by omega)]
    congr 1
    omega
  · unfold get_events pySliceFrom
    simp only [Option.getD_some]
    rw [if_neg (by omega)]
    have h0 : ((-0 : Int)).toNat = 0 := rfl
    rw [h0, List.drop_zero]
  · unfold get_events pySliceFrom
    simp only [Option.getD_some, neg_neg]
    rw [if_neg (by omega)]
    congr 1

/-- Sample records for the `GET /events` witness and counterexample. -/
def sampleRecord : WebhookRecord := ⟨some "r1", some "issues", some "opened", some 1, none⟩

def sampleRecord2 : WebhookRecord := ⟨some "r2", some "issue_comment", none, some 2, none⟩

def sampleRecord3 : WebhookRecord := ⟨some "r3", some "ping", none, none, none⟩

def eventsSample : List WebhookRecord := [sampleRecord, sampleRecord2, sampleRecord3]

/-- Witness for claim C3 on a concrete three-record store with limit 2. -/
theorem get_events_tail_semantics_witness :
    (1 ≤ 2 ∧ get_events (some ((2 : Nat) : Int)) eventsSample
        = eventsSample.drop (eventsSample.length - 2))
  ∧ get_events (some 0) eventsSample = eventsSample
  ∧ get_events (some (-((2 : Nat) : Int))) eventsSample = eventsSample.drop 2
  ∧ get_events none eventsSample = get_events (some 10) eventsSample := by
  have h := get_events_tail_semantics eventsSample 2
  exact ⟨⟨by decide, h.1 (by decide)⟩, h.2.1, h.2.2.1, h.2.2.2⟩

/-- Counterexample to claim C3 as stated: `limit=0` returns the whole store,
not an empty sequence, and a negative limit is not clamped to zero — `-1` on a
two-record store yields the store minus its first record. -/
theorem get_events_limit_zero_counterexample :
    get_events (some 0) [sampleRecord] = [sampleRecord]
  ∧ get_events (some 0) [sampleRecord] ≠ []
  ∧ get_events (some (-1)) [sampleRecord, sampleRecord2] = [sampleRecord2] := by
  refine ⟨by decide, by decide, by decide⟩

/-- Claim C6: a `PATCH /issues/{number}` body whose `state` field is set to
anything other than `open` or `closed` draws 400 with no upstream round trip:
the result is the validation error for every upstream oracle, i.e. it does not
depend on the upstream call at all. -/
theorem update_issue_invalid_state_fail_fast (number : Nat) (issue : IssueUpdate)
    (v : Option String) (hset : issue.state = some v)
    (ho : v ≠ some "open") (hc : v ≠ some "closed") :
    ∀ upstream : IssueUpdate → UpstreamResponse,
      update_issue number issue upstream = .err 400 "state must be 'open' or 'closed'" := by
  intro upstream
  have hinv : state_invalid issue = true := by
    unfold state_invalid
    rw [hset]
    simp [ho, hc]
  unfold update_issue
  rw [if_pos hinv]

/-- Witness for claim C6: `{"state": "archived"}` on issue 5 yields the 400
validation error under an arbitrary concrete upstream oracle. -/
theorem update_issue_invalid_state_fail_fast_witness :
    ({ state := some (some "archived") } : IssueUpdate).state = some (some "archived")
  ∧ (some "archived" : Option String) ≠ some "open"
  ∧ (some "archived" : Option String) ≠ some "closed"
  ∧ update_issue 5 { state := some (some "archived") } (fun _ => ⟨200, none, ""⟩)
      = .err 400 "state must be 'open' or 'closed'" :=
  ⟨rfl, by decide, by decide,
    update_issue_invalid_state_fail_fast 5 { state := some (some "archived") }
      (some "archived") rfl (by decide) (by decide) (fun _ => ⟨200, none, ""⟩)⟩

/-- Claim C7 (amended): `POST /issues` maps exactly the upstream status 201 to
local success with the translated body; upstream 401 to a local 401
authorization error; and every other upstream status — including other 2xx
codes such as 200 — to a local error with the fixed status 400 (the upstream
status is not passed through) carrying the raw upstream body as detail. -/
theorem create_issue_upstream_mapping (issue : IssueCreate)
    (upstream : CreatePayload → UpstreamResponse) :
    ((upstream ⟨issue.title, issue.body, issue.labels.getD []⟩).status = 201 →
       create_issue issue upstream =
         (upstream ⟨issue.title, issue.body, issue.labels.getD []⟩).issue.map fun data =>
           CreateResult.success 201 ("/issues/" ++ toString data.number) (translate_issue data))
  ∧ ((upstream ⟨issue.title, issue.body, issue.labels.getD []⟩).status = 401 →
       create_issue issue upstream = some (.err 401 "Unauthorized"))
  ∧ ((upstream ⟨issue.title, issue.body, issue.labels.getD []⟩).status ≠ 201 →
     (upstream ⟨issue.title, issue.body, issue.labels.getD []⟩).status ≠ 401 →
       create_issue issue upstream =
         some (.err 400 (upstream ⟨issue.title, issue.body, issue.labels.getD []⟩).text)) := by
  refine ⟨fun h => ?_, fun h => ?_, fun h1 h2 => ?_⟩ <;> simp only [create_issue]
  · rw [if_pos h]
  · rw [if_neg (by omega), if_pos h]
  · rw [if_neg h1, if_neg h2]

/-- Witness for claim C7: a concrete upstream 503 is surfaced as a local 400
carrying the raw body. -/
theorem create_issue_upstream_mapping_witness :
    ((fun _ : CreatePayload => ({ status := 503, issue := none, text := "oops" } :
        UpstreamResponse)) ⟨"x", none, []⟩).status ≠ 201
  ∧ ((fun _ : CreatePayload => ({ status := 503, issue := none, text := "oops" } :
        UpstreamResponse)) ⟨"x", none, []⟩).status ≠ 401
  ∧ create_issue ⟨"x", none, none⟩ (fun _ => ⟨503, none, "oops"⟩)
      = some (.err 400 "oops") :=
  ⟨by decide, by decide,
    (create_issue_upstream_mapping ⟨"x", none, none⟩ (fun _ => ⟨503, none, "oops"⟩)).2.2
      (by decide) (by decide)⟩

/-- Counterexample to claim C7 as stated: a non-2xx upstream status (503) is
not passed through but becomes a local 400, and a 2xx upstream status other
than 201 (here 200, with a perfectly well-formed issue body) is not a success
but also becomes a local 400. -/
theorem create_issue_status_not_passthrough :
    create_issue ⟨"bug", none, none⟩ (fun _ => ⟨503, none, "upstream down"⟩)
        = some (.err 400 "upstream down")
  ∧ create_issue ⟨"bug", none, none⟩ (fun _ => ⟨503, none, "upstream down"⟩)
        ≠ some (.err 503 "upstream down")
  ∧ create_issue ⟨"bug", none, none⟩
        (fun _ => ⟨200, some ⟨7, "t", none, "open", [], "u", "c1", "c2"⟩, "ok"⟩)
        = some (.err 400 "ok") := by
  refine ⟨by decide, by decide, by decide⟩

/-- Claim C9: when the upstream call made by `POST /issues` returns 201 with an
issue object whose number is `N`, the local response is a 201 success whose
`Location` header is `/issues/N` and whose body's `number` field is `N`. -/
theorem create_issue_success_location (issue : IssueCreate)
    (upstream : CreatePayload → UpstreamResponse) (data : UpstreamIssue) (N : Nat)
    (hs : (upstream ⟨issue.title, issue.body, issue.labels.getD []⟩).status = 201)
    (hb : (upstream ⟨issue.title, issue.body, issue.labels.getD []⟩).issue = some data)
    (hn : data.number = N) :
    create_issue issue upstream
        = some (.success 201 ("/issues/" ++ toString N) (translate_issue data))
    ∧ (translate_issue data).number = N := by
  constructor
  · simp only [create_issue]
    rw [if_pos hs, hb]
    simp only [Option.map_some']
    rw [hn]
  · simp [translate_issue, hn]

/-- Concrete upstream issue object with number 42 for the claim C9 witness. -/
def upstreamIssue42 : UpstreamIssue :=
  ⟨42, "bug", none, "open", [⟨"p1"⟩], "https://example/42", "t1", "t2"⟩

/-- Concrete upstream oracle answering 201 with `upstreamIssue42`. -/
def upstream201 : CreatePayload → UpstreamResponse := fun _ => ⟨201, some upstreamIssue42, ""⟩

/-- Witness for claim C9: creating `{"title": "bug"}` against an upstream that
answers 201 with issue number 42 yields a 201 success with `Location`
`/issues/42` and body number 42. -/
theorem create_issue_success_location_witness :
    (upstream201 ⟨"bug", none, []⟩).status = 201
  ∧ (upstream201 ⟨"bug", none, []⟩).issue = some upstreamIssue42
  ∧ upstreamIssue42.number = 42
  ∧ (create_issue ⟨"bug", none, none⟩ upstream201
      = some (.success 201 ("/issues/" ++ toString 42) (translate_issue upstreamIssue42))
    ∧ (translate_issue upstreamIssue42).number = 42) :=
  ⟨rfl, rfl, rfl,
    create_issue_success_location ⟨"bug", none, none⟩ upstream201 upstreamIssue42 42
      rfl rfl rfl⟩
